import Mathlib

/-
  Verification development for the payment-gateway repository.

  Shallow embedding of the core components:
  - RefundService.processRefund (backend/src/services/RefundService.js)
  - RefundRepository query functions (backend/src/repository/RefundRepository.js)
  - the Express route handlers for POST /api/v1/payments,
    POST /api/v1/payments/:payment_id/refunds, GET /api/v1/webhooks and
    POST /api/v1/webhooks/:webhook_id/retry (src/unnamed/part_005)
  - PaymentWorker, RefundWorker, PaymentWorkerEnhanced (backend/src/workers)
  - the webhook-queue worker (src/unnamed/part_007)

  Database tables (src/unnamed/part_001) are modelled as Lean lists held in a
  single state record; SQL INSERT appends, SQL UPDATE maps over the list,
  SELECT ... WHERE is List.find? or List.filter.  Timestamps are abstracted:
  NOW() is not modelled, and next_retry_at is stored as the relative delay in
  seconds.  Randomly generated identifiers (uuid) are passed in as explicit
  arguments.  The settlement outcome (Math.random against the method success
  rate, or TEST_MODE environment flags) is passed in as a Bool argument, and
  the outbound webhook HTTP call is passed in as a function argument.
-/

set_option maxRecDepth 8192

deriving instance DecidableEq for Except

namespace PG

/-- Payment status column: the handlers write only pending, the payment
worker writes success or failed. -/
inductive PayStatus
  | pending
  | success
  | failed
deriving DecidableEq, Repr

/-- Refund status column: the service writes pending, the refund worker
writes processed; failed and cancelled appear in the data model. -/
inductive RefStatus
  | pending
  | processed
  | failed
  | cancelled
deriving DecidableEq, Repr

/-- Webhook log status column written by the webhook worker and the manual
retry handler. -/
inductive WebhookStatus
  | pending
  | success
  | failed
deriving DecidableEq, Repr

/-- Row of the merchants table. -/
structure Merchant where
  id : String
  apiKey : String
  webhookUrl : Option String
  webhookSecret : String
deriving DecidableEq, Repr

/-- Row of the payments table. -/
structure Payment where
  id : String
  merchantId : String
  orderId : String
  amount : Int
  status : PayStatus
  method : String
deriving DecidableEq, Repr

/-- Row of the refunds table. -/
structure Refund where
  id : String
  paymentId : String
  merchantId : String
  amount : Int
  reason : String
  status : RefStatus
  idempotencyKey : Option String
deriving DecidableEq, Repr

/-- Response body of POST /api/v1/payments: the JSON object
with fields id, order_id, amount, status. -/
structure PaymentResponse where
  id : String
  orderId : String
  amount : Int
  status : String
deriving DecidableEq, Repr

/-- Row of the idempotency_keys table; response_body is the stored JSONB
payment response. -/
structure IdemRecord where
  key : String
  merchantId : String
  responseBody : PaymentResponse
deriving DecidableEq, Repr

/-- Webhook payload, the object built by the webhook worker as
an event name, a timestamp (abstracted away) and data.payment (the payment
row looked up by the paymentId in the job, absent for refund events). -/
structure Payload where
  event : String
  payment : Option Payment
deriving DecidableEq, Repr

/-- Row of the webhook_logs table.  The id is DB-generated
(gen_random_uuid) for rows inserted by the worker; the model inserts an
empty-string id there since no claim correlates worker-inserted ids.
next_retry_at is stored as the relative delay in seconds. -/
structure WebhookLog where
  id : String
  merchantId : String
  event : String
  payload : Payload
  status : WebhookStatus
  attempts : Nat
  nextRetryAt : Option Nat
  responseCode : Option Nat
  responseBody : Option String
deriving DecidableEq, Repr

/-- Job on the webhook-queue: the object
passed to webhookQueue.add, with attempt defaulting to 1 at the consumer. -/
structure WebhookJob where
  event : String
  paymentId : Option String
  refundId : Option String
  merchantId : String
  attempt : Nat
deriving DecidableEq, Repr

/-- Structured error produced by RefundService._createError and by the route
handlers when they answer with an error JSON body. -/
structure ApiError where
  code : String
  description : String
  statusCode : Nat
deriving DecidableEq, Repr

/-- The persistent state: the four database tables of the schema plus the
three bullmq queues.  Payment and refund jobs carry just the row id; webhook
jobs carry the WebhookJob data and the enqueue delay in milliseconds. -/
structure St where
  merchants : List Merchant
  payments : List Payment
  refunds : List Refund
  idemKeys : List IdemRecord
  webhookLogs : List WebhookLog
  paymentJobs : List String
  refundJobs : List String
  webhookJobs : List (WebhookJob × Nat)
deriving DecidableEq, Repr

/-- SELECT * FROM payments WHERE id = $1 (RefundRepository.getPaymentById
and the inline queries of the handlers and workers). -/
def getPaymentById (ps : List Payment) (paymentId : String) : Option Payment :=
  ps.find? (fun p => p.id == paymentId)

/-- SELECT SUM(amount) FROM refunds WHERE payment_id = $1 AND status IN
(processed, pending); a NULL sum is coerced to 0
(RefundRepository.getTotalRefundedAmount and the inline query of the
refunds route handler). -/
def getTotalRefundedAmount (rs : List Refund) (paymentId : String) : Int :=
  ((rs.filter (fun r =>
      r.paymentId == paymentId &&
        (r.status == RefStatus.processed || r.status == RefStatus.pending))).map
    (fun r => r.amount)).sum

/-- SELECT ... FROM refunds WHERE idempotency_key = $1 LIMIT 1
(RefundRepository.findRefundByIdempotencyKey).  Note the query is not
scoped by merchant. -/
def findRefundByIdempotencyKey (rs : List Refund) (key : String) :
    Option Refund :=
  rs.find? (fun r => r.idempotencyKey == some key)

/-- INSERT INTO refunds ... RETURNING the row
(RefundRepository.createRefund): appends the row. -/
def createRefund (rs : List Refund) (r : Refund) : List Refund :=
  rs ++ [r]

/-- Error object thrown at step 2 of RefundService.processRefund when the
payment row is absent. -/
def paymentNotFoundErr : ApiError :=
  ⟨"PAYMENT_NOT_FOUND", "Payment not found", 404⟩

/-- Error object thrown when the payment status is not success. -/
def notRefundableErr : ApiError :=
  ⟨"BAD_REQUEST_ERROR", "Payment not in refundable state", 400⟩

/-- Error object thrown when amount plus the outstanding total exceeds the
payment amount. -/
def limitExceededErr : ApiError :=
  ⟨"REFUND_AMOUNT_EXCEEDS_LIMIT", "Refund amount exceeds available amount", 400⟩

/-- Error object thrown when the requested amount is not positive. -/
def invalidAmountErr : ApiError :=
  ⟨"INVALID_REFUND_AMOUNT", "Refund amount must be greater than 0", 400⟩

/-- RefundService.processRefund.  Steps in source order: (1) idempotency
lookup, returning the existing refund on a hit; (2) fetch the payment,
PAYMENT_NOT_FOUND if absent, BAD_REQUEST_ERROR if its status is not
success; (3) compute the refunded total; (4) REFUND_AMOUNT_EXCEEDS_LIMIT
if requestedAmount + total > payment.amount, then INVALID_REFUND_AMOUNT if
requestedAmount <= 0; (5-7) insert the pending refund row carrying the
idempotency key, enqueue a refund job, return the row.  The generated
refund id is the newId argument. -/
def processRefund (s : St) (paymentId : String) (requestedAmount : Int)
    (reason : String) (idempotencyKey : Option String) (newId : String) :
    Except ApiError Refund × St :=
  match idempotencyKey.bind (fun k => findRefundByIdempotencyKey s.refunds k) with
  | some existingRefund => (Except.ok existingRefund, s)
  | none =>
    match getPaymentById s.payments paymentId with
    | none => (Except.error paymentNotFoundErr, s)
    | some payment =>
      if payment.status ≠ PayStatus.success then
        (Except.error notRefundableErr, s)
      else
        let totalRefunded := getTotalRefundedAmount s.refunds paymentId
        if requestedAmount + totalRefunded > payment.amount then
          (Except.error limitExceededErr, s)
        else if requestedAmount ≤ 0 then
          (Except.error invalidAmountErr, s)
        else
          let refund : Refund :=
            ⟨newId, paymentId, payment.merchantId, requestedAmount, reason,
              RefStatus.pending, idempotencyKey⟩
          (Except.ok refund,
            { s with
              refunds := createRefund s.refunds refund
              refundJobs := s.refundJobs ++ [newId] })

/-- HTTP status code the RefundController answers with for a processRefund
result: 201 on success, the statusCode of the error otherwise. -/
def refundHttpStatus (r : Except ApiError Refund) : Nat :=
  match r with
  | Except.ok _ => 201
  | Except.error e => e.statusCode

/-- SELECT response_body FROM idempotency_keys WHERE key = $1 AND
merchant_id = $2 (payments route handler, step A).  Note: expires_at is not
consulted by this query. -/
def lookupIdemKey (ks : List IdemRecord) (key merchantId : String) :
    Option IdemRecord :=
  ks.find? (fun r => r.key == key && r.merchantId == merchantId)

/-- POST /api/v1/payments route handler (src/unnamed/part_005 lines 44-85).
merchantId is req.merchantId attached by the auth middleware; newPaymentId
is the generated pay_ uuid.  Step A: on an idempotency-cache hit the stored
response body is returned with HTTP status 200 and nothing else happens.
Otherwise the payment row is inserted with status pending (there is no
validation of amount or method), the response is recorded under the key
when one was supplied, a payment job is enqueued, and the handler answers
201 with the response body. -/
def postPayments (s : St) (merchantId orderId : String) (amount : Int)
    (method : String) (idempotencyKey : Option String) (newPaymentId : String) :
    (Nat × PaymentResponse) × St :=
  match idempotencyKey.bind (fun k => lookupIdemKey s.idemKeys k merchantId) with
  | some cached => ((200, cached.responseBody), s)
  | none =>
    let payment : Payment :=
      ⟨newPaymentId, merchantId, orderId, amount, PayStatus.pending, method⟩
    let responseData : PaymentResponse :=
      ⟨newPaymentId, orderId, amount, "pending"⟩
    let s1 := { s with payments := s.payments ++ [payment] }
    let s2 : St :=
      match idempotencyKey with
      | some k =>
        { s1 with idemKeys := s1.idemKeys ++ [⟨k, merchantId, responseData⟩] }
      | none => s1
    ((201, responseData),
      { s2 with paymentJobs := s2.paymentJobs ++ [newPaymentId] })

/-- Error body of the refunds route handler when the payment is absent or
not in status success. -/
def routeNotRefundableErr : ApiError :=
  ⟨"BAD_REQUEST_ERROR", "Only successful payments can be refunded", 400⟩

/-- Error body of the refunds route handler when the limit check fails. -/
def routeLimitErr : ApiError :=
  ⟨"BAD_REQUEST_ERROR", "Refund amount exceeds available balance", 400⟩

/-- POST /api/v1/payments/:payment_id/refunds route handler
(src/unnamed/part_005 lines 88-127).  requesterMerchantId is
req.merchantId attached by the auth middleware; the handler body never
reads it: the payment is fetched by id alone and the created refund takes
payment.merchant_id.  No idempotency handling and no positivity check
exist on this path; the inserted row has no idempotency key. -/
def postRefunds (requesterMerchantId : String) (s : St) (paymentId : String)
    (requestedAmount : Int) (reason : String) (newRefundId : String) :
    Except ApiError Refund × St :=
  match getPaymentById s.payments paymentId with
  | none => (Except.error routeNotRefundableErr, s)
  | some payment =>
    if payment.status ≠ PayStatus.success then
      (Except.error routeNotRefundableErr, s)
    else
      let totalRefunded := getTotalRefundedAmount s.refunds paymentId
      if requestedAmount + totalRefunded > payment.amount then
        (Except.error routeLimitErr, s)
      else
        let refund : Refund :=
          ⟨newRefundId, paymentId, payment.merchantId, requestedAmount, reason,
            RefStatus.pending, none⟩
        (Except.ok refund,
          { s with
            refunds := s.refunds ++ [refund]
            refundJobs := s.refundJobs ++ [newRefundId] })

/-- GET /api/v1/webhooks route handler query: webhook_logs rows
WHERE merchant_id = $1 with LIMIT and OFFSET (ordering by created_at is
not modelled; the list order stands in for it). -/
def listWebhooks (logs : List WebhookLog) (merchantId : String)
    (limit offset : Nat) : List WebhookLog :=
  (((logs.filter (fun w => w.merchantId == merchantId)).drop offset).take limit)

/-- SELECT * FROM webhook_logs WHERE id = $1 AND merchant_id = $2, the
lookup of the manual retry handler. -/
def findWebhookLog (logs : List WebhookLog) (webhookId merchantId : String) :
    Option WebhookLog :=
  logs.find? (fun w => w.id == webhookId && w.merchantId == merchantId)

/-- Error body of the manual retry handler when no row matches. -/
def webhookNotFoundErr : ApiError :=
  ⟨"NOT_FOUND", "Webhook log not found", 404⟩

/-- POST /api/v1/webhooks/:webhook_id/retry route handler
(src/unnamed/part_005 lines 171-186).  On a tenant-scoped hit it runs
UPDATE webhook_logs SET status = pending, attempts = 0,
next_retry_at = NOW(), response_code = NULL, response_body = NULL on the
matching id, then enqueues a delivery job at attempt 1 with the paymentId
taken from the stored payload.  NOW() is modelled as relative delay 0. -/
def retryWebhook (requesterMerchantId : String) (s : St) (webhookId : String) :
    Except ApiError String × St :=
  match findWebhookLog s.webhookLogs webhookId requesterMerchantId with
  | none => (Except.error webhookNotFoundErr, s)
  | some w =>
    let s1 :=
      { s with
        webhookLogs := s.webhookLogs.map (fun (l : WebhookLog) =>
          if l.id == webhookId then
            { l with
              status := WebhookStatus.pending
              attempts := 0
              nextRetryAt := some 0
              responseCode := none
              responseBody := none }
          else l) }
    let job : WebhookJob :=
      ⟨w.event, w.payload.payment.map (fun p => p.id), none, w.merchantId, 1⟩
    (Except.ok webhookId,
      { s1 with webhookJobs := s1.webhookJobs ++ [(job, 0)] })

/-- UPDATE payments SET status = $1 WHERE id = $2: rewrites the status of
every row with the given id, with no guard on the current status. -/
def setPaymentStatus (ps : List Payment) (paymentId : String)
    (status : PayStatus) : List Payment :=
  ps.map (fun p => if p.id == paymentId then { p with status := status } else p)

/-- Event-name suffix used in payment.success / payment.failed. -/
def payStatusStr (st : PayStatus) : String :=
  match st with
  | PayStatus.pending => "pending"
  | PayStatus.success => "success"
  | PayStatus.failed => "failed"

/-- PaymentWorker (backend/src/workers/PaymentWorker.js).  The settlement
outcome (TEST_MODE flags or the method success probability) is the outcome
argument.  When the payment row is absent the job throws on the undefined
row before any ledger write takes effect and the state is unchanged.
Otherwise: UPDATE payments SET status WHERE id = $2 with no guard on the
current status, then enqueue a webhook job for payment.status (attempt
defaults to 1 at the consumer). -/
def processPaymentJob (s : St) (paymentId : String) (outcome : Bool) :
    Except Unit Unit × St :=
  match getPaymentById s.payments paymentId with
  | none => (Except.error (), s)
  | some payment =>
    let status := if outcome then PayStatus.success else PayStatus.failed
    let s1 := { s with payments := setPaymentStatus s.payments paymentId status }
    (Except.ok (),
      { s1 with
        webhookJobs := s1.webhookJobs ++
          [(⟨"payment." ++ payStatusStr status, some paymentId, none,
              payment.merchantId, 1⟩, 0)] })

/-- RefundWorker (backend/src/workers/RefundWorker.js).  UPDATE refunds SET
status = processed WHERE id = $1 with no guard on the current status, then
re-fetch the row for the webhook; if the row is absent the job throws
after the (vacuous) update.  Enqueues refund.processed with the refundId
and merchantId (no paymentId field, so the webhook worker will find no
payment for the payload). -/
def processRefundJob (s : St) (refundId : String) : Except Unit Unit × St :=
  let updated := s.refunds.map (fun r =>
    if r.id == refundId then { r with status := RefStatus.processed } else r)
  let s1 := { s with refunds := updated }
  match updated.find? (fun r => r.id == refundId) with
  | none => (Except.error (), s1)
  | some refund =>
    (Except.ok (),
      { s1 with
        webhookJobs := s1.webhookJobs ++
          [(⟨"refund.processed", none, some refundId, refund.merchantId, 1⟩, 0)] })

/-- PaymentWorkerEnhanced (backend/src/workers/PaymentWorkerEnhanced.js).
Same settlement as PaymentWorker, but wrapped in try/catch: on any thrown
error the catch handler runs UPDATE payments SET status = failed WHERE id
and rethrows.  webhookAddFails models webhookQueue.add throwing after the
status write.  When the payment row is absent, the throw happens before
any write and the catch-update matches no rows, so the state is
unchanged. -/
def processPaymentJobEnhanced (s : St) (paymentId : String) (outcome : Bool)
    (webhookAddFails : Bool) : Except Unit Unit × St :=
  match getPaymentById s.payments paymentId with
  | none => (Except.error (), s)
  | some payment =>
    let status := if outcome then PayStatus.success else PayStatus.failed
    let s1 := { s with payments := setPaymentStatus s.payments paymentId status }
    if webhookAddFails then
      (Except.error (),
        { s1 with
          payments := setPaymentStatus s1.payments paymentId PayStatus.failed })
    else
      (Except.ok (),
        { s1 with
          webhookJobs := s1.webhookJobs ++
            [(⟨"payment." ++ payStatusStr status, some paymentId, none,
                payment.merchantId, 1⟩, 0)] })

/-- SELECT * FROM merchants WHERE id = $1. -/
def findMerchant (ms : List Merchant) (merchantId : String) : Option Merchant :=
  ms.find? (fun m => m.id == merchantId)

/-- Production retry schedule of the webhook worker, in seconds. -/
def webhookDelays : List Nat := [0, 60, 300, 1800, 7200]

/-- Delay in seconds chosen for the re-enqueue after a failure at the given
attempt: the JS expression delays[attempt] || delays[delays.length - 1],
where both an out-of-range index (undefined) and a 0 entry are falsy and
fall back to the last entry 7200. -/
def delayForAttempt (attempt : Nat) : Nat :=
  let d := webhookDelays.getD attempt 0
  if d == 0 then 7200 else d

/-- Outcome of the outbound POST to the merchant webhook URL: ok on an HTTP
2xx, error with the optional response status code otherwise (none models a
timeout or network error with no response). -/
def DeliverFn : Type := WebhookJob → Except (Option Nat) Unit

/-- webhook-queue worker body (src/unnamed/part_007).  Looks up the
merchant; drops the job silently when the merchant or its webhook_url is
absent.  Builds the payload from the payment row named by the job, signs
and POSTs it (the HTTP call is the deliver argument; the HMAC signature
only feeds the request headers and is not modelled).  On success: insert a
success webhook_logs row with attempts = attempt.  On failure with
attempt < 5: insert a pending row with attempts = attempt + 1 and
next_retry_at the scheduled delay, and re-enqueue the job with
attempt + 1 and that delay in milliseconds.  On failure with attempt >= 5:
insert a terminal failed row with attempts = attempt and the response
status code; no re-enqueue. -/
def webhookStep (deliver : DeliverFn) (s : St) (job : WebhookJob) : St :=
  match findMerchant s.merchants job.merchantId with
  | none => s
  | some merchant =>
    match merchant.webhookUrl with
    | none => s
    | some _url =>
      let payment := job.paymentId.bind (fun pid => getPaymentById s.payments pid)
      let payload : Payload := ⟨job.event, payment⟩
      match deliver job with
      | Except.ok _ =>
        { s with
          webhookLogs := s.webhookLogs ++
            [⟨"", job.merchantId, job.event, payload, WebhookStatus.success,
              job.attempt, none, none, none⟩] }
      | Except.error responseCode =>
        if job.attempt < 5 then
          let d := delayForAttempt job.attempt
          { s with
            webhookLogs := s.webhookLogs ++
              [⟨"", job.merchantId, job.event, payload, WebhookStatus.pending,
                job.attempt + 1, some d, none, none⟩]
            webhookJobs := s.webhookJobs ++
              [({ job with attempt := job.attempt + 1 }, d * 1000)] }
        else
          { s with
            webhookLogs := s.webhookLogs ++
              [⟨"", job.merchantId, job.event, payload, WebhookStatus.failed,
                job.attempt, none, responseCode, none⟩] }

/-- Drives the webhook queue: repeatedly pops the head job and runs the
worker body on it, until the queue is empty or the fuel runs out.  The
enqueue delay only orders redelivery in real time and does not affect the
single-job runs studied here. -/
def runWebhookQueue (deliver : DeliverFn) (fuel : Nat) (s : St) : St :=
  match fuel with
  | 0 => s
  | fuel + 1 =>
    match s.webhookJobs with
    | [] => s
    | (job, _delay) :: rest =>
      runWebhookQueue deliver fuel
        (webhookStep deliver { s with webhookJobs := rest } job)

/-- A refund request as submitted to RefundService.processRefund, with the
generated id made explicit. -/
structure RefundReq where
  paymentId : String
  amount : Int
  reason : String
  key : Option String
  newId : String

/-- State after a processRefund call, discarding the response. -/
def applyRefund (s : St) (q : RefundReq) : St :=
  (processRefund s q.paymentId q.amount q.reason q.key q.newId).2

/-- State after a sequence of processRefund calls. -/
def runRefunds (s : St) (qs : List RefundReq) : St :=
  qs.foldl applyRefund s

/-- The refund amount-limit invariant of the data model: for every payment
row, the outstanding (pending or processed) refund total does not exceed
the payment amount. -/
def refundInvariant (s : St) : Prop :=
  ∀ pid pay, getPaymentById s.payments pid = some pay →
    getTotalRefundedAmount s.refunds pid ≤ pay.amount

/-- Finding in an appended list when the front has no match. -/
theorem find?_append_none {α : Type} (p : α → Bool) (l₁ l₂ : List α)
    (h : l₁.find? p = none) : (l₁ ++ l₂).find? p = l₂.find? p := by
  induction l₁ with
  | nil => rfl
  | cons a t ih =>
    rw [List.cons_append]
    rw [List.find?] at h ⊢
    cases hp : p a with
    | true => rw [hp] at h; simp at h
    | false =>
      rw [hp] at h
      simp only at h ⊢
      exact ih h

/-- Outstanding total over an appended refund row. -/
theorem totalRefunded_append (rs : List Refund) (r : Refund) (pid : String) :
    getTotalRefundedAmount (rs ++ [r]) pid =
      getTotalRefundedAmount rs pid +
        (if r.paymentId == pid &&
            (r.status == RefStatus.processed || r.status == RefStatus.pending)
          then r.amount else 0) := by
  unfold getTotalRefundedAmount
  rw [List.filter_append, List.map_append, List.sum_append]
  congr 1
  cases hcond : (r.paymentId == pid &&
      (r.status == RefStatus.processed || r.status == RefStatus.pending)) with
  | true => simp [List.filter, hcond]
  | false => simp [List.filter, hcond]

/-- On an idempotency-cache miss with the payment present and in status
success, within the amount limit and with a positive amount, processRefund
creates the pending refund row and enqueues its job. -/
theorem processRefund_accepts (s : St) (pid : String) (amt : Int)
    (rsn : String) (key : Option String) (nid : String)
    (hhit : key.bind (fun k => findRefundByIdempotencyKey s.refunds k) = none)
    (payment : Payment)
    (hpay : getPaymentById s.payments pid = some payment)
    (hst : payment.status = PayStatus.success)
    (hlim : ¬ amt + getTotalRefundedAmount s.refunds pid > payment.amount)
    (hpos : ¬ amt ≤ 0) :
    processRefund s pid amt rsn key nid =
      (Except.ok
          ⟨nid, pid, payment.merchantId, amt, rsn, RefStatus.pending, key⟩,
        { s with
          refunds := s.refunds ++
            [⟨nid, pid, payment.merchantId, amt, rsn, RefStatus.pending, key⟩]
          refundJobs := s.refundJobs ++ [nid] }) := by
  unfold processRefund
  rw [hhit, hpay]
  simp [hst, hlim, hpos, createRefund]

/-- processRefund never touches the payments table. -/
theorem processRefund_payments (s : St) (pid : String) (amt : Int)
    (rsn : String) (key : Option String) (nid : String) :
    (processRefund s pid amt rsn key nid).2.payments = s.payments := by
  unfold processRefund
  cases hhit : key.bind (fun k => findRefundByIdempotencyKey s.refunds k) with
  | some r => rfl
  | none =>
    cases hpay : getPaymentById s.payments pid with
    | none => rfl
    | some payment =>
      by_cases hst : payment.status = PayStatus.success
      · by_cases hlim : amt + getTotalRefundedAmount s.refunds pid > payment.amount
        · simp [hst, hlim]
        · by_cases hpos : amt ≤ 0
          · simp [hst, hlim, hpos]
          · simp [hst, hlim, hpos]
      · simp [hst]

/-- One processRefund call preserves the amount-limit invariant. -/
theorem processRefund_invariant (s : St) (pid : String) (amt : Int)
    (rsn : String) (key : Option String) (nid : String)
    (h : refundInvariant s) :
    refundInvariant (processRefund s pid amt rsn key nid).2 := by
  unfold refundInvariant at h ⊢
  intro pid' pay' h'
  rw [processRefund_payments] at h'
  by_cases hhit :
      key.bind (fun k => findRefundByIdempotencyKey s.refunds k) = none
  case neg =>
    have hs : (processRefund s pid amt rsn key nid).2 = s := by
      rcases ho : key.bind (fun k => findRefundByIdempotencyKey s.refunds k)
        with _ | r
      · exact absurd ho hhit
      · unfold processRefund
        rw [ho]
    rw [hs]
    exact h pid' pay' h'
  case pos =>
    cases hpay : getPaymentById s.payments pid with
    | none =>
      have hs : (processRefund s pid amt rsn key nid).2 = s := by
        unfold processRefund
        rw [hhit, hpay]
      rw [hs]
      exact h pid' pay' h'
    | some payment =>
      by_cases hst : payment.status = PayStatus.success
      · by_cases hlim :
            amt + getTotalRefundedAmount s.refunds pid > payment.amount
        · have hs : (processRefund s pid amt rsn key nid).2 = s := by
            unfold processRefund
            rw [hhit, hpay]
            simp [hst, hlim]
          rw [hs]
          exact h pid' pay' h'
        · by_cases hpos : amt ≤ 0
          · have hs : (processRefund s pid amt rsn key nid).2 = s := by
              unfold processRefund
              rw [hhit, hpay]
              simp [hst, hlim, hpos]
            rw [hs]
            exact h pid' pay' h'
          · have hs := processRefund_accepts s pid amt rsn key nid hhit
              payment hpay hst hlim hpos
            rw [hs]
            simp only
            rw [totalRefunded_append]
            by_cases hpid : pid = pid'
            · subst hpid
              rw [hpay] at h'
              injection h' with h'
              subst h'
              have hcond : ((pid == pid) &&
                  (RefStatus.pending == RefStatus.processed ||
                    RefStatus.pending == RefStatus.pending)) = true := by simp
              rw [if_pos hcond]
              show getTotalRefundedAmount s.refunds pid + amt ≤ payment.amount
              omega
            · have hb : (pid == pid') = false := by simp [hpid]
              have hcond : ¬ (((pid == pid') &&
                  (RefStatus.pending == RefStatus.processed ||
                    RefStatus.pending == RefStatus.pending)) = true) := by
                simp [hb]
              rw [if_neg hcond]
              have := h pid' pay' h'
              omega
      · have hs : (processRefund s pid amt rsn key nid).2 = s := by
          unfold processRefund
          rw [hhit, hpay]
          simp [hst]
        rw [hs]
        exact h pid' pay' h'

/-- On a cache miss with the payment present in status success, a request
whose amount plus the outstanding total exceeds the payment amount is
answered with REFUND_AMOUNT_EXCEEDS_LIMIT and the state is unchanged. -/
theorem processRefund_limit_reject (s : St) (pid : String) (amt : Int)
    (rsn : String) (key : Option String) (nid : String)
    (hhit : key.bind (fun k => findRefundByIdempotencyKey s.refunds k) = none)
    (payment : Payment)
    (hpay : getPaymentById s.payments pid = some payment)
    (hst : payment.status = PayStatus.success)
    (hgt : amt + getTotalRefundedAmount s.refunds pid > payment.amount) :
    processRefund s pid amt rsn key nid = (Except.error limitExceededErr, s) := by
  unfold processRefund
  rw [hhit, hpay]
  simp [hst, hgt]

/-- The empty database and queues. -/
def stEmpty : St := ⟨[], [], [], [], [], [], [], []⟩

/-- C1.  For every payment P and every sequence of processRefund calls, the
sum of amounts of refunds on P whose status is pending or processed never
exceeds P.amount (first conjunct: the invariant is preserved by any
sequence of calls); and a refund request reaching the limit check (fresh or
absent idempotency key, payment present and in status success) whose amount
plus the outstanding total exceeds the payment amount is rejected with
REFUND_AMOUNT_EXCEEDS_LIMIT and leaves the state - hence the refund table
and the refund queue - unchanged (second conjunct). -/
theorem refund_limit_invariant_C1 :
    (∀ (s : St) (qs : List RefundReq),
      refundInvariant s → refundInvariant (runRefunds s qs))
    ∧ (∀ (s : St) (pid : String) (amt : Int) (rsn : String)
        (key : Option String) (nid : String) (payment : Payment),
        key.bind (fun k => findRefundByIdempotencyKey s.refunds k) = none →
        getPaymentById s.payments pid = some payment →
        payment.status = PayStatus.success →
        amt + getTotalRefundedAmount s.refunds pid > payment.amount →
        processRefund s pid amt rsn key nid =
          (Except.error limitExceededErr, s)) := by
  constructor
  · intro s qs
    induction qs generalizing s with
    | nil => exact fun h => h
    | cons q rest ih =>
      intro h
      exact ih (applyRefund s q) (processRefund_invariant s q.paymentId
        q.amount q.reason q.key q.newId h)
  · intro s pid amt rsn key nid payment hhit hpay hst hgt
    exact processRefund_limit_reject s pid amt rsn key nid hhit payment hpay
      hst hgt

/-- Fixture for the C1 witness: one successful payment of 100 with an
outstanding pending refund of 80. -/
def c1State : St :=
  { stEmpty with
    payments := [⟨"pay_1", "m1", "o1", 100, PayStatus.success, "card"⟩]
    refunds := [⟨"rfnd_1", "pay_1", "m1", 80, "dmg", RefStatus.pending, none⟩] }

/-- Witness for C1: a request of 30 against the fixture payment (80
outstanding of 100) is rejected with the limit error and changes nothing. -/
theorem refund_limit_invariant_C1_witness :
    ((none : Option String).bind
        (fun k => findRefundByIdempotencyKey c1State.refunds k) = none)
    ∧ getPaymentById c1State.payments "pay_1" =
        some ⟨"pay_1", "m1", "o1", 100, PayStatus.success, "card"⟩
    ∧ (Payment.status ⟨"pay_1", "m1", "o1", 100, PayStatus.success, "card"⟩ =
        PayStatus.success)
    ∧ ((30 : Int) + getTotalRefundedAmount c1State.refunds "pay_1" > 100)
    ∧ processRefund c1State "pay_1" 30 "second refund" none "rfnd_2" =
        (Except.error limitExceededErr, c1State) := by
  refine ⟨rfl, by decide, rfl, by decide, ?_⟩
  exact refund_limit_invariant_C1.2 c1State "pay_1" 30 "second refund" none
    "rfnd_2" ⟨"pay_1", "m1", "o1", 100, PayStatus.success, "card"⟩ rfl
    (by decide) rfl (by decide)

/-- Fixture for the C3 counterexample: a successful payment of 100 that is
already fully refunded by a pending refund of 100. -/
def c3State : St :=
  { stEmpty with
    payments := [⟨"pay_1", "m1", "o1", 100, PayStatus.success, "card"⟩]
    refunds :=
      [⟨"rfnd_1", "pay_1", "m1", 100, "full", RefStatus.pending, none⟩] }

/-- C3 counterexample.  The claim says a request with amount <= 0 against a
fully refunded successful payment yields the limit-exceeded error; on the
code a request of amount 0 against the fully refunded fixture payment
passes the limit check (0 + 100 > 100 is false) and is answered with
INVALID_REFUND_AMOUNT, not REFUND_AMOUNT_EXCEEDS_LIMIT. -/
theorem refund_check_order_C3_counterexample :
    processRefund c3State "pay_1" 0 "late request" none "rfnd_2" =
      (Except.error invalidAmountErr, c3State)
    ∧ invalidAmountErr ≠ limitExceededErr := by
  constructor
  · decide
  · decide

/-- C3 (amended).  processRefund evaluates its checks in the fixed order
idempotency-key lookup, payment existence, payment state, composite amount
limit, amount positivity; each conjunct pins one stage of the order by
holding for arbitrary later-stage violations.  In particular the fourth
conjunct holds even when amt <= 0, so a request failing both the limit
check and the positivity check reports the limit error; but a request with
amt <= 0 against a fully refunded successful payment satisfies
amt + total <= payment.amount, so the limit check does not fire and the
positivity error INVALID_REFUND_AMOUNT is reported (fifth conjunct). -/
theorem refund_check_order_C3 :
    (∀ (s : St) (pid : String) (amt : Int) (rsn : String)
        (key : Option String) (nid : String) (r : Refund),
        key.bind (fun k => findRefundByIdempotencyKey s.refunds k) = some r →
        processRefund s pid amt rsn key nid = (Except.ok r, s))
    ∧ (∀ (s : St) (pid : String) (amt : Int) (rsn : String)
        (key : Option String) (nid : String),
        key.bind (fun k => findRefundByIdempotencyKey s.refunds k) = none →
        getPaymentById s.payments pid = none →
        processRefund s pid amt rsn key nid =
          (Except.error paymentNotFoundErr, s))
    ∧ (∀ (s : St) (pid : String) (amt : Int) (rsn : String)
        (key : Option String) (nid : String) (payment : Payment),
        key.bind (fun k => findRefundByIdempotencyKey s.refunds k) = none →
        getPaymentById s.payments pid = some payment →
        payment.status ≠ PayStatus.success →
        processRefund s pid amt rsn key nid =
          (Except.error notRefundableErr, s))
    ∧ (∀ (s : St) (pid : String) (amt : Int) (rsn : String)
        (key : Option String) (nid : String) (payment : Payment),
        key.bind (fun k => findRefundByIdempotencyKey s.refunds k) = none →
        getPaymentById s.payments pid = some payment →
        payment.status = PayStatus.success →
        amt + getTotalRefundedAmount s.refunds pid > payment.amount →
        processRefund s pid amt rsn key nid =
          (Except.error limitExceededErr, s))
    ∧ (∀ (s : St) (pid : String) (amt : Int) (rsn : String)
        (key : Option String) (nid : String) (payment : Payment),
        key.bind (fun k => findRefundByIdempotencyKey s.refunds k) = none →
        getPaymentById s.payments pid = some payment →
        payment.status = PayStatus.success →
        ¬ amt + getTotalRefundedAmount s.refunds pid > payment.amount →
        amt ≤ 0 →
        processRefund s pid amt rsn key nid =
          (Except.error invalidAmountErr, s)) := by
  refine ⟨?_, ?_, ?_, ?_, ?_⟩
  · intro s pid amt rsn key nid r hhit
    unfold processRefund
    rw [hhit]
  · intro s pid amt rsn key nid hhit hpay
    unfold processRefund
    rw [hhit, hpay]
  · intro s pid amt rsn key nid payment hhit hpay hst
    unfold processRefund
    rw [hhit, hpay]
    simp [hst]
  · intro s pid amt rsn key nid payment hhit hpay hst hgt
    exact processRefund_limit_reject s pid amt rsn key nid hhit payment hpay
      hst hgt
  · intro s pid amt rsn key nid payment hhit hpay hst hlim hpos
    unfold processRefund
    rw [hhit, hpay]
    simp [hst, hlim, hpos]

/-- Fixture for the C3 witness: an over-refunded successful payment (150
outstanding against an amount of 100), making the limit check and the
positivity check both fail for a request of -1. -/
def c3WitState : St :=
  { stEmpty with
    payments := [⟨"pay_1", "m1", "o1", 100, PayStatus.success, "card"⟩]
    refunds :=
      [⟨"rfnd_1", "pay_1", "m1", 150, "over", RefStatus.pending, none⟩] }

/-- Witness for C3: a request of -1 violating both the limit check
(-1 + 150 > 100) and the positivity check is answered with the limit error,
pinning limit-before-positivity. -/
theorem refund_check_order_C3_witness :
    ((none : Option String).bind
        (fun k => findRefundByIdempotencyKey c3WitState.refunds k) = none)
    ∧ getPaymentById c3WitState.payments "pay_1" =
        some ⟨"pay_1", "m1", "o1", 100, PayStatus.success, "card"⟩
    ∧ (Payment.status ⟨"pay_1", "m1", "o1", 100, PayStatus.success, "card"⟩ =
        PayStatus.success)
    ∧ ((-1 : Int) + getTotalRefundedAmount c3WitState.refunds "pay_1" > 100)
    ∧ ((-1 : Int) ≤ 0)
    ∧ processRefund c3WitState "pay_1" (-1) "bad" none "rfnd_2" =
        (Except.error limitExceededErr, c3WitState) := by
  refine ⟨rfl, by decide, rfl, by decide, by decide, ?_⟩
  exact refund_check_order_C3.2.2.2.1 c3WitState "pay_1" (-1) "bad" none
    "rfnd_2" ⟨"pay_1", "m1", "o1", 100, PayStatus.success, "card"⟩ rfl
    (by decide) rfl (by decide)

/-- Fixture for the C2 counterexample: one payment already in the terminal
status success. -/
def c2State : St :=
  { stEmpty with
    payments := [⟨"pay_1", "m1", "o1", 100, PayStatus.success, "upi"⟩] }

/-- C2 counterexample.  The claim says a settlement job delivered for a
payment whose status is already terminal leaves the status unchanged; on
the code the payment worker UPDATE carries no status guard, so replaying a
job for the fixture payment (already success) with a failed settlement
outcome rewrites the stored status to failed. -/
theorem terminal_status_C2_counterexample :
    (getPaymentById c2State.payments "pay_1").map Payment.status =
        some PayStatus.success
    ∧ (getPaymentById (processPaymentJob c2State "pay_1" false).2.payments
        "pay_1").map Payment.status = some PayStatus.failed
    ∧ PayStatus.failed ≠ PayStatus.success := by
  refine ⟨rfl, rfl, by decide⟩

/-- C2 (amended).  The workers' status writes are unguarded: whenever the
payment row exists, the payment worker rewrites its status to the new
settlement outcome regardless of the current status, and the refund worker
rewrites the refund status to processed regardless of the current status.
Replaying a settlement job on an already-terminal row therefore overwrites
the stored status with the replay outcome, and is a no-op on the ledger
only when that outcome coincides with the stored status. -/
theorem terminal_status_C2 :
    (∀ (s : St) (pid : String) (outcome : Bool) (payment : Payment),
      getPaymentById s.payments pid = some payment →
      ∀ p ∈ (processPaymentJob s pid outcome).2.payments, p.id = pid →
        p.status = (if outcome then PayStatus.success else PayStatus.failed))
    ∧ (∀ (s : St) (rid : String),
      ∀ r ∈ (processRefundJob s rid).2.refunds, r.id = rid →
        r.status = RefStatus.processed) := by
  constructor
  · intro s pid outcome payment hpay p hp hid
    have hps : (processPaymentJob s pid outcome).2.payments =
        setPaymentStatus s.payments pid
          (if outcome then PayStatus.success else PayStatus.failed) := by
      unfold processPaymentJob
      rw [hpay]
    rw [hps] at hp
    unfold setPaymentStatus at hp
    rcases List.mem_map.1 hp with ⟨q, _hq, hfq⟩
    by_cases hqid : q.id = pid
    · have hb : (q.id == pid) = true := by simp [hqid]
      rw [hb] at hfq
      simp at hfq
      rw [← hfq]
    · have hb : (q.id == pid) = false := by simp [hqid]
      rw [hb] at hfq
      simp at hfq
      rw [← hfq] at hid
      exact absurd hid hqid
  · intro s rid r hr hid
    have hrs : (processRefundJob s rid).2.refunds =
        s.refunds.map (fun q =>
          if q.id == rid then { q with status := RefStatus.processed }
          else q) := by
      unfold processRefundJob
      cases hf : (s.refunds.map (fun q =>
          if q.id == rid then { q with status := RefStatus.processed }
          else q)).find? (fun q => q.id == rid) with
      | none => simp only [hf]
      | some q => simp only [hf]
    rw [hrs] at hr
    rcases List.mem_map.1 hr with ⟨q, _hq, hfq⟩
    by_cases hqid : q.id = rid
    · have hb : (q.id == rid) = true := by simp [hqid]
      rw [hb] at hfq
      simp at hfq
      rw [← hfq]
    · have hb : (q.id == rid) = false := by simp [hqid]
      rw [hb] at hfq
      simp at hfq
      rw [← hfq] at hid
      exact absurd hid hqid

/-- Witness for C2: replaying a success outcome over the fixture payment
leaves status success, and a refund job on a cancelled refund row rewrites
it to processed. -/
theorem terminal_status_C2_witness :
    (getPaymentById c2State.payments "pay_1" =
        some ⟨"pay_1", "m1", "o1", 100, PayStatus.success, "upi"⟩)
    ∧ (⟨"pay_1", "m1", "o1", 100, PayStatus.failed, "upi"⟩ : Payment) ∈
        (processPaymentJob c2State "pay_1" false).2.payments
    ∧ Payment.id ⟨"pay_1", "m1", "o1", 100, PayStatus.failed, "upi"⟩ = "pay_1"
    ∧ Payment.status ⟨"pay_1", "m1", "o1", 100, PayStatus.failed, "upi"⟩ =
        (if false then PayStatus.success else PayStatus.failed) := by
  refine ⟨by decide, by decide, rfl, ?_⟩
  exact terminal_status_C2.1 c2State "pay_1" false
    ⟨"pay_1", "m1", "o1", 100, PayStatus.success, "upi"⟩ (by decide)
    ⟨"pay_1", "m1", "o1", 100, PayStatus.failed, "upi"⟩ (by decide) rfl

/-- Rows matching the id after setPaymentStatus carry the written status. -/
theorem setPaymentStatus_status (ps : List Payment) (pid : String)
    (st : PayStatus) :
    ∀ p ∈ setPaymentStatus ps pid st, p.id = pid → p.status = st := by
  intro p hp hid
  unfold setPaymentStatus at hp
  rcases List.mem_map.1 hp with ⟨q, _hq, hfq⟩
  by_cases hqid : q.id = pid
  · have hb : (q.id == pid) = true := by simp [hqid]
    rw [hb] at hfq
    simp at hfq
    rw [← hfq]
  · have hb : (q.id == pid) = false := by simp [hqid]
    rw [hb] at hfq
    simp at hfq
    rw [← hfq] at hid
    exact absurd hid hqid

/-- C10.  In the enhanced payment worker, when a step after the ledger
status write throws (modelled by the webhook enqueue failing), the catch
handler overwrites the payment status to failed before rethrowing: with a
success settlement outcome and a failing webhook enqueue the job errors
and the payment row ends in status failed, although the same job with a
working enqueue ends in status success.  So a transient error after a
successful settlement write converts the stored status from success to
failed instead of leaving the ledger unchanged. -/
theorem enhanced_catch_overwrites_C10 :
    ∀ (s : St) (pid : String) (payment : Payment),
      getPaymentById s.payments pid = some payment →
      ((processPaymentJobEnhanced s pid true true).1 = Except.error ()
        ∧ ∀ p ∈ (processPaymentJobEnhanced s pid true true).2.payments,
            p.id = pid → p.status = PayStatus.failed)
      ∧ ((processPaymentJobEnhanced s pid true false).1 = Except.ok ()
        ∧ ∀ p ∈ (processPaymentJobEnhanced s pid true false).2.payments,
            p.id = pid → p.status = PayStatus.success) := by
  intro s pid payment hpay
  have hfail : processPaymentJobEnhanced s pid true true =
      (Except.error (),
        { s with
          payments := setPaymentStatus
            (setPaymentStatus s.payments pid PayStatus.success) pid
            PayStatus.failed }) := by
    unfold processPaymentJobEnhanced
    rw [hpay]
    rfl
  have hok : processPaymentJobEnhanced s pid true false =
      (Except.ok (),
        { s with
          payments := setPaymentStatus s.payments pid PayStatus.success
          webhookJobs := s.webhookJobs ++
            [(⟨"payment." ++ payStatusStr PayStatus.success, some pid, none,
                payment.merchantId, 1⟩, 0)] }) := by
    unfold processPaymentJobEnhanced
    rw [hpay]
    rfl
  refine ⟨⟨by rw [hfail], ?_⟩, ⟨by rw [hok], ?_⟩⟩
  · rw [hfail]
    exact setPaymentStatus_status _ pid PayStatus.failed
  · rw [hok]
    exact setPaymentStatus_status _ pid PayStatus.success

/-- Witness for C10 over the c2 fixture payment: with payment pay_1 in the
table, the job with a failing webhook enqueue errors out and leaves the
row failed. -/
theorem enhanced_catch_overwrites_C10_witness :
    (getPaymentById c2State.payments "pay_1" =
        some ⟨"pay_1", "m1", "o1", 100, PayStatus.success, "upi"⟩)
    ∧ (processPaymentJobEnhanced c2State "pay_1" true true).1 =
        Except.error ()
    ∧ (⟨"pay_1", "m1", "o1", 100, PayStatus.failed, "upi"⟩ : Payment) ∈
        (processPaymentJobEnhanced c2State "pay_1" true true).2.payments
    ∧ Payment.status ⟨"pay_1", "m1", "o1", 100, PayStatus.failed, "upi"⟩ =
        PayStatus.failed := by
  refine ⟨by decide, ?_, by decide, ?_⟩
  · exact (enhanced_catch_overwrites_C10 c2State "pay_1"
      ⟨"pay_1", "m1", "o1", 100, PayStatus.success, "upi"⟩ (by decide)).1.1
  · exact (enhanced_catch_overwrites_C10 c2State "pay_1"
      ⟨"pay_1", "m1", "o1", 100, PayStatus.success, "upi"⟩ (by decide)).1.2
      ⟨"pay_1", "m1", "o1", 100, PayStatus.failed, "upi"⟩ (by decide) rfl

/-- Fixture for the C5 counterexample: an idempotency record for key k1 of
merchant m1, storing the original 201 response body. -/
def c5State : St :=
  { stEmpty with
    idemKeys := [⟨"k1", "m1", ⟨"pay_1", "o1", 500, "pending"⟩⟩] }

/-- C5 counterexample.  The claim says a replayed payment-create request
returns the stored body with the same HTTP status code as the original
response (201); on the code the replay branch answers
res.status(200), so the fixture replay returns 200, not 201. -/
theorem payment_idempotent_replay_C5_counterexample :
    (postPayments c5State "m1" "o1" 500 "upi" (some "k1") "pay_9").1.1 = 200
    ∧ (200 : Nat) ≠ 201 := by
  exact ⟨rfl, by decide⟩

/-- C5 (amended).  For every payment-create request carrying an idempotency
key with a recorded response for that (key, merchant) pair, the stored
response body is returned unchanged, no Payment row is created and no job
is enqueued - but the HTTP status code is 200, not the original 201. -/
theorem payment_idempotent_replay_C5 :
    ∀ (s : St) (mid oid : String) (amount : Int) (method : String)
      (k : String) (rec : IdemRecord) (nid : String),
      lookupIdemKey s.idemKeys k mid = some rec →
      postPayments s mid oid amount method (some k) nid =
        ((200, rec.responseBody), s) := by
  intro s mid oid amount method k rec nid hrec
  unfold postPayments
  rw [Option.some_bind, hrec]

/-- Witness for C5: the fixture replay returns the stored body with status
200 and leaves the state unchanged. -/
theorem payment_idempotent_replay_C5_witness :
    (lookupIdemKey c5State.idemKeys "k1" "m1" =
        some ⟨"k1", "m1", ⟨"pay_1", "o1", 500, "pending"⟩⟩)
    ∧ postPayments c5State "m1" "o2" 700 "card" (some "k1") "pay_9" =
        ((200, ⟨"pay_1", "o1", 500, "pending"⟩), c5State) := by
  refine ⟨by decide, ?_⟩
  exact payment_idempotent_replay_C5 c5State "m1" "o2" 700 "card" "k1"
    ⟨"k1", "m1", ⟨"pay_1", "o1", 500, "pending"⟩⟩ "pay_9" (by decide)

/-- C6 counterexample.  The claim says a cache-missing payment-create
request with amount not greater than 0 or empty method fails with a
ValidationError and creates no Payment row and no job; on the code the
handler performs no validation: a request of amount -5 with empty method
is answered 201, inserts a pending Payment row with amount -5 and enqueues
its job. -/
theorem payment_validation_C6_counterexample :
    (postPayments stEmpty "m1" "o1" (-5) "" none "pay_1").1.1 = 201
    ∧ (postPayments stEmpty "m1" "o1" (-5) "" none "pay_1").2.payments =
        [⟨"pay_1", "m1", "o1", -5, PayStatus.pending, ""⟩]
    ∧ (postPayments stEmpty "m1" "o1" (-5) "" none "pay_1").2.paymentJobs =
        ["pay_1"] := by
  exact ⟨rfl, rfl, rfl⟩

/-- C6 (amended).  The payment-create handler performs no validation at
all: every request that misses the idempotency cache - whatever its
amount and method, including amount <= 0 and an empty method - creates a
pending Payment row with exactly the given amount and method, enqueues a
payment job, and is answered 201; there is no ValidationError path. -/
theorem payment_validation_C6 :
    ∀ (s : St) (mid oid : String) (amount : Int) (method : String)
      (key : Option String) (nid : String),
      (key.bind fun k => lookupIdemKey s.idemKeys k mid) = none →
      (postPayments s mid oid amount method key nid).1.1 = 201
      ∧ (postPayments s mid oid amount method key nid).2.payments =
          s.payments ++ [⟨nid, mid, oid, amount, PayStatus.pending, method⟩]
      ∧ (postPayments s mid oid amount method key nid).2.paymentJobs =
          s.paymentJobs ++ [nid] := by
  intro s mid oid amount method key nid hmiss
  unfold postPayments
  rw [hmiss]
  refine ⟨rfl, ?_, ?_⟩ <;> cases key <;> rfl

/-- Witness for C6: a cache miss on the empty state with amount -5 and
empty method creates the row and the job and answers 201. -/
theorem payment_validation_C6_witness :
    ((none : Option String).bind
        (fun k => lookupIdemKey stEmpty.idemKeys k "m1") = none)
    ∧ (postPayments stEmpty "m1" "o1" (-5) "" none "pay_1").1.1 = 201
    ∧ (postPayments stEmpty "m1" "o1" (-5) "" none "pay_1").2.payments =
        stEmpty.payments ++ [⟨"pay_1", "m1", "o1", -5, PayStatus.pending, ""⟩] := by
  refine ⟨rfl, ?_, ?_⟩
  · exact (payment_validation_C6 stEmpty "m1" "o1" (-5) "" none "pay_1" rfl).1
  · exact (payment_validation_C6 stEmpty "m1" "o1" (-5) "" none "pay_1"
      rfl).2.1

/-- Fixture for the C8 counterexample: two merchants mA and mB, with a
successful payment of 100 belonging to mB. -/
def c8StateWithB : St :=
  { stEmpty with
    merchants := [⟨"mA", "keyA", none, "secA"⟩, ⟨"mB", "keyB", none, "secB"⟩]
    payments := [⟨"pay_B", "mB", "oB", 100, PayStatus.success, "card"⟩] }

/-- The same fixture with tenant mB's payment removed. -/
def c8StateNoB : St :=
  { stEmpty with
    merchants := [⟨"mA", "keyA", none, "secA"⟩, ⟨"mB", "keyB", none, "secB"⟩] }

/-- C8 counterexample.  The claim says no operation invoked by tenant A
reads or returns a record of tenant B and its result is unchanged by the
presence of tenant B's records; on the code the refunds route handler
fetches the payment by id alone, so tenant mA's refund request against
tenant mB's payment succeeds, creates a refund row attributed to mB, and
its outcome flips from 201 to an error once mB's payment is removed. -/
theorem tenant_scoping_C8_counterexample :
    (postRefunds "mA" c8StateWithB "pay_B" 50 "grab" "rfnd_1").1 =
        Except.ok ⟨"rfnd_1", "pay_B", "mB", 50, "grab", RefStatus.pending, none⟩
    ∧ ("mB" : String) ≠ "mA"
    ∧ (postRefunds "mA" c8StateNoB "pay_B" 50 "grab" "rfnd_1").1 =
        Except.error routeNotRefundableErr := by
  refine ⟨rfl, by decide, rfl⟩

/-- C8 (amended).  The payment-create idempotency lookup and the webhook
listing and manual-retry lookups are tenant-scoped (they only return
records of the requesting merchant), but the refund path is not: the
refunds route handler never reads the authenticated merchant at all, so
its result is identical for any two requesting tenants, and (per the
counterexample) it reads, refunds and returns another tenant's payment.
RefundRepository.findRefundByIdempotencyKey likewise queries by key alone
with no tenant parameter. -/
theorem tenant_scoping_C8 :
    (∀ (ks : List IdemRecord) (k mid : String) (rec : IdemRecord),
      lookupIdemKey ks k mid = some rec → rec.merchantId = mid)
    ∧ (∀ (logs : List WebhookLog) (mid : String) (limit offset : Nat)
        (w : WebhookLog), w ∈ listWebhooks logs mid limit offset →
          w.merchantId = mid)
    ∧ (∀ (logs : List WebhookLog) (wid mid : String) (w : WebhookLog),
        findWebhookLog logs wid mid = some w → w.merchantId = mid)
    ∧ (∀ (a b : String) (s : St) (pid : String) (amt : Int) (rsn nid : String),
        postRefunds a s pid amt rsn nid = postRefunds b s pid amt rsn nid) := by
  refine ⟨?_, ?_, ?_, ?_⟩
  · intro ks k mid rec h
    have hp := List.find?_some h
    simp only [Bool.and_eq_true] at hp
    simpa using hp.2
  · intro logs mid limit offset w hw
    have hw2 : w ∈ (logs.filter (fun l => l.merchantId == mid)) :=
      List.mem_of_mem_drop (List.mem_of_mem_take hw)
    have hb := List.of_mem_filter hw2
    simpa using hb
  · intro logs wid mid w h
    have hp := List.find?_some h
    simp only [Bool.and_eq_true] at hp
    simpa using hp.2
  · intro a b s pid amt rsn nid
    rfl

/-- Witness for C8: the tenant-scoped lookups on concrete single-row
tables return the owning merchant, and the refund handler result for the
fixture is literally independent of the requesting tenant. -/
theorem tenant_scoping_C8_witness :
    (lookupIdemKey [⟨"k1", "mA", ⟨"pay_1", "o1", 5, "pending"⟩⟩] "k1" "mA" =
        some ⟨"k1", "mA", ⟨"pay_1", "o1", 5, "pending"⟩⟩)
    ∧ IdemRecord.merchantId ⟨"k1", "mA", ⟨"pay_1", "o1", 5, "pending"⟩⟩ = "mA"
    ∧ postRefunds "mA" c8StateWithB "pay_B" 50 "grab" "rfnd_1" =
        postRefunds "mB" c8StateWithB "pay_B" 50 "grab" "rfnd_1" := by
  refine ⟨by decide, ?_, ?_⟩
  · exact tenant_scoping_C8.1 [⟨"k1", "mA", ⟨"pay_1", "o1", 5, "pending"⟩⟩]
      "k1" "mA" ⟨"k1", "mA", ⟨"pay_1", "o1", 5, "pending"⟩⟩ (by decide)
  · exact tenant_scoping_C8.2.2.2 "mA" "mB" c8StateWithB "pay_B" 50 "grab"
      "rfnd_1"

/-- The in-place reset the manual retry handler applies to the targeted
webhook_logs row. -/
def resetRetryRow (webhookId : String) (l : WebhookLog) : WebhookLog :=
  if l.id == webhookId then
    { l with
      status := WebhookStatus.pending
      attempts := 0
      nextRetryAt := some 0
      responseCode := none
      responseBody := none }
  else l

/-- Fixture for the C9 counterexample: a terminally failed webhook log row
of merchant mA with 5 attempts and response code 500. -/
def c9State : St :=
  { stEmpty with
    webhookLogs :=
      [⟨"w1", "mA", "payment.success", ⟨"payment.success", none⟩,
        WebhookStatus.failed, 5, none, some 500, none⟩] }

/-- C9 counterexample.  The claim says every operation, including the
manual webhook retry, either appends a WebhookAttempt record or leaves
the log unchanged, and no existing record's status, attempts or response
code are mutated in place; on the code the manual retry UPDATE rewrites
the targeted row: the fixture log keeps its length but its only row
changes from (failed, 5 attempts, code 500) to (pending, 0 attempts, no
code). -/
theorem webhook_append_only_C9_counterexample :
    (retryWebhook "mA" c9State "w1").2.webhookLogs.length =
        c9State.webhookLogs.length
    ∧ (retryWebhook "mA" c9State "w1").2.webhookLogs ≠ c9State.webhookLogs
    ∧ ((retryWebhook "mA" c9State "w1").2.webhookLogs.map
        WebhookLog.attempts) = [0]
    ∧ (c9State.webhookLogs.map WebhookLog.attempts) = [5] := by
  refine ⟨rfl, by decide, rfl, rfl⟩

/-- C9 (amended).  The webhook delivery engine is append-only: every run
of the worker body - delivery success, scheduled retry, terminal failure,
or a dropped job - leaves the existing log rows untouched and appends at
most one new row.  The manual webhook retry however does not append: it
mutates the targeted row in place, resetting status to pending, attempts
to 0 and clearing the response fields, while preserving the log length. -/
theorem webhook_append_only_C9 :
    (∀ (deliver : DeliverFn) (s : St) (job : WebhookJob),
      ∃ t, (webhookStep deliver s job).webhookLogs = s.webhookLogs ++ t)
    ∧ (∀ (req : String) (s : St) (wid : String) (w : WebhookLog),
        findWebhookLog s.webhookLogs wid req = some w →
        (retryWebhook req s wid).2.webhookLogs =
          s.webhookLogs.map (resetRetryRow wid)
        ∧ ((retryWebhook req s wid).2.webhookLogs).length =
            s.webhookLogs.length) := by
  constructor
  · intro deliver s job
    unfold webhookStep
    cases hm : findMerchant s.merchants job.merchantId with
    | none => exact ⟨[], by simp⟩
    | some m =>
      cases hu : m.webhookUrl with
      | none =>
        simp only [hu]
        exact ⟨[], by simp⟩
      | some url =>
        simp only [hu]
        cases hd : deliver job with
        | ok u =>
          simp only [hd]
          exact ⟨_, rfl⟩
        | error rc =>
          simp only [hd]
          by_cases ha : job.attempt < 5
          · rw [if_pos ha]
            exact ⟨_, rfl⟩
          · rw [if_neg ha]
            exact ⟨_, rfl⟩
  · intro req s wid w h
    have hlogs : (retryWebhook req s wid).2.webhookLogs =
        s.webhookLogs.map (resetRetryRow wid) := by
      unfold retryWebhook
      rw [h]
      rfl
    exact ⟨hlogs, by rw [hlogs, List.length_map]⟩

/-- Witness for C9: the manual retry over the fixture maps the reset over
the single row and preserves the length. -/
theorem webhook_append_only_C9_witness :
    (findWebhookLog c9State.webhookLogs "w1" "mA" =
        some ⟨"w1", "mA", "payment.success", ⟨"payment.success", none⟩,
          WebhookStatus.failed, 5, none, some 500, none⟩)
    ∧ (retryWebhook "mA" c9State "w1").2.webhookLogs =
        c9State.webhookLogs.map (resetRetryRow "w1")
    ∧ (retryWebhook "mA" c9State "w1").2.webhookLogs.length =
        c9State.webhookLogs.length := by
  refine ⟨by decide, ?_, ?_⟩
  · exact (webhook_append_only_C9.2 "mA" c9State "w1"
      ⟨"w1", "mA", "payment.success", ⟨"payment.success", none⟩,
        WebhookStatus.failed, 5, none, some 500, none⟩ (by decide)).1
  · exact (webhook_append_only_C9.2 "mA" c9State "w1"
      ⟨"w1", "mA", "payment.success", ⟨"payment.success", none⟩,
        WebhookStatus.failed, 5, none, some 500, none⟩ (by decide)).2

/-- On an idempotency hit, processRefund returns the stored refund and
changes nothing, running none of the later checks. -/
theorem processRefund_hit (s : St) (pid : String) (amt : Int)
    (rsn k nid : String) (r : Refund)
    (h : findRefundByIdempotencyKey s.refunds k = some r) :
    processRefund s pid amt rsn (some k) nid = (Except.ok r, s) := by
  unfold processRefund
  rw [Option.some_bind, h]

/-- The same refund request submitted repeatedly (same idempotency key),
with the supply of generated ids made explicit; returns the list of
responses and the final state. -/
def runSameKey (pid : String) (amt : Int) (rsn k : String) :
    St → List String → List (Except ApiError Refund) × St
  | s, [] => ([], s)
  | s, nid :: rest =>
    let out := processRefund s pid amt rsn (some k) nid
    let next := runSameKey pid amt rsn k out.2 rest
    (out.1 :: next.1, next.2)

/-- Once a refund with the key exists, every further submission returns it
and leaves the state unchanged. -/
theorem runSameKey_hit (pid : String) (amt : Int) (rsn k : String)
    (r : Refund) :
    ∀ (ids : List String) (s : St),
      findRefundByIdempotencyKey s.refunds k = some r →
      runSameKey pid amt rsn k s ids =
        (List.replicate ids.length (Except.ok r), s) := by
  intro ids
  induction ids with
  | nil => intro s _h; rfl
  | cons nid rest ih =>
    intro s h
    have hcall := processRefund_hit s pid amt rsn k nid r h
    simp only [runSameKey, hcall]
    rw [ih s h]
    rfl

/-- C7.  processRefund is idempotent under a fixed idempotency key: a valid
refund request (fresh key, payment present in status success, within the
limit, positive amount) submitted N >= 1 times yields the identical ok
response carrying the same refund id every time, all mapped to HTTP 201;
the final state holds exactly one refund row with that key and exactly the
one enqueued job of the first call (second and third conjuncts); and once
a refund with the key exists, any further call - with arbitrary payment id
and amount - returns the stored refund unchanged without re-running the
payment, limit or amount checks (last conjunct). -/
theorem refund_idempotent_C7 :
    (∀ (s : St) (pid : String) (amt : Int) (rsn k : String)
        (payment : Payment) (id0 : String) (ids : List String),
      findRefundByIdempotencyKey s.refunds k = none →
      getPaymentById s.payments pid = some payment →
      payment.status = PayStatus.success →
      ¬ amt + getTotalRefundedAmount s.refunds pid > payment.amount →
      ¬ amt ≤ 0 →
      (runSameKey pid amt rsn k s (id0 :: ids)).1 =
          List.replicate (ids.length + 1)
            (Except.ok ⟨id0, pid, payment.merchantId, amt, rsn,
              RefStatus.pending, some k⟩)
      ∧ ((runSameKey pid amt rsn k s (id0 :: ids)).1.map refundHttpStatus =
          List.replicate (ids.length + 1) 201)
      ∧ (runSameKey pid amt rsn k s (id0 :: ids)).2 =
          { s with
            refunds := s.refunds ++
              [⟨id0, pid, payment.merchantId, amt, rsn, RefStatus.pending,
                some k⟩]
            refundJobs := s.refundJobs ++ [id0] }
      ∧ ((runSameKey pid amt rsn k s (id0 :: ids)).2.refunds.filter
            (fun r => r.idempotencyKey == some k)).length = 1)
    ∧ (∀ (s : St) (pid : String) (amt : Int) (rsn k nid : String)
        (r : Refund),
        findRefundByIdempotencyKey s.refunds k = some r →
        processRefund s pid amt rsn (some k) nid = (Except.ok r, s)) := by
  constructor
  · intro s pid amt rsn k payment id0 ids hk hpay hst hlim hpos
    have hmiss : (some k).bind
        (fun kk => findRefundByIdempotencyKey s.refunds kk) = none := by
      rw [Option.some_bind]
      exact hk
    have hacc := processRefund_accepts s pid amt rsn (some k) id0 hmiss
      payment hpay hst hlim hpos
    have hfind : findRefundByIdempotencyKey
        (s.refunds ++
          [⟨id0, pid, payment.merchantId, amt, rsn, RefStatus.pending,
            some k⟩]) k =
        some ⟨id0, pid, payment.merchantId, amt, rsn, RefStatus.pending,
          some k⟩ := by
      unfold findRefundByIdempotencyKey at hk ⊢
      rw [find?_append_none _ _ _ hk]
      simp [List.find?]
    have hrun := runSameKey_hit pid amt rsn k
      ⟨id0, pid, payment.merchantId, amt, rsn, RefStatus.pending, some k⟩ ids
      { s with
        refunds := s.refunds ++
          [⟨id0, pid, payment.merchantId, amt, rsn, RefStatus.pending,
            some k⟩]
        refundJobs := s.refundJobs ++ [id0] } hfind
    have hwhole : runSameKey pid amt rsn k s (id0 :: ids) =
        (Except.ok (⟨id0, pid, payment.merchantId, amt, rsn,
            RefStatus.pending, some k⟩ : Refund) ::
          List.replicate ids.length
            (Except.ok ⟨id0, pid, payment.merchantId, amt, rsn,
              RefStatus.pending, some k⟩),
          { s with
            refunds := s.refunds ++
              [⟨id0, pid, payment.merchantId, amt, rsn, RefStatus.pending,
                some k⟩]
            refundJobs := s.refundJobs ++ [id0] }) := by
      simp only [runSameKey, hacc]
      rw [hrun]
    refine ⟨?_, ?_, ?_, ?_⟩
    · rw [hwhole]
      simp [List.replicate_succ]
    · rw [hwhole]
      simp only [List.map_cons, List.map_replicate, List.replicate_succ]
      rfl
    · rw [hwhole]
    · rw [hwhole]
      simp only
      rw [List.filter_append]
      have hnil : s.refunds.filter (fun r => r.idempotencyKey == some k)
          = [] := by
        rw [List.filter_eq_nil_iff]
        intro a ha
        have := List.find?_eq_none.1 hk a ha
        simpa using this
      rw [hnil]
      simp [List.filter]
  · intro s pid amt rsn k nid r h
    exact processRefund_hit s pid amt rsn k nid r h

/-- Fixture for the C7 witness: a successful payment of 100 with no
refunds yet. -/
def c7State : St :=
  { stEmpty with
    payments := [⟨"pay_1", "m1", "o1", 100, PayStatus.success, "card"⟩] }

/-- Witness for C7: the same refund of 40 under key kA submitted three
times yields three identical ok responses with id rfnd_1, and one stored
refund row with that key. -/
theorem refund_idempotent_C7_witness :
    (findRefundByIdempotencyKey c7State.refunds "kA" = none)
    ∧ getPaymentById c7State.payments "pay_1" =
        some ⟨"pay_1", "m1", "o1", 100, PayStatus.success, "card"⟩
    ∧ (Payment.status ⟨"pay_1", "m1", "o1", 100, PayStatus.success, "card"⟩ =
        PayStatus.success)
    ∧ (¬ (40 : Int) + getTotalRefundedAmount c7State.refunds "pay_1" > 100)
    ∧ (¬ (40 : Int) ≤ 0)
    ∧ (runSameKey "pay_1" 40 "dmg" "kA" c7State
          ["rfnd_1", "rfnd_2", "rfnd_3"]).1 =
        List.replicate 3
          (Except.ok ⟨"rfnd_1", "pay_1", "m1", 40, "dmg", RefStatus.pending,
            some "kA"⟩)
    ∧ ((runSameKey "pay_1" 40 "dmg" "kA" c7State
          ["rfnd_1", "rfnd_2", "rfnd_3"]).2.refunds.filter
          (fun r => r.idempotencyKey == some "kA")).length = 1 := by
  refine ⟨rfl, by decide, rfl, by decide, by decide, ?_, ?_⟩
  · exact (refund_idempotent_C7.1 c7State "pay_1" 40 "dmg" "kA"
      ⟨"pay_1", "m1", "o1", 100, PayStatus.success, "card"⟩ "rfnd_1"
      ["rfnd_2", "rfnd_3"] rfl (by decide) rfl (by decide) (by decide)).1
  · exact (refund_idempotent_C7.1 c7State "pay_1" 40 "dmg" "kA"
      ⟨"pay_1", "m1", "o1", 100, PayStatus.success, "card"⟩ "rfnd_1"
      ["rfnd_2", "rfnd_3"] rfl (by decide) rfl (by decide)
      (by decide)).2.2.2

/-- Shape of the pending webhook_logs row inserted after a failed attempt
that will be retried. -/
def pendingLog (mid event : String) (pl : Payload) (attempts wait : Nat) :
    WebhookLog :=
  ⟨"", mid, event, pl, WebhookStatus.pending, attempts, some wait, none, none⟩

/-- Shape of the terminal failed webhook_logs row. -/
def failedLog (mid event : String) (pl : Payload) (attempts : Nat)
    (rc : Option Nat) : WebhookLog :=
  ⟨"", mid, event, pl, WebhookStatus.failed, attempts, none, rc, none⟩

/-- A worker run on an empty queue changes nothing, whatever the fuel. -/
theorem runWebhookQueue_empty (deliver : DeliverFn) (fuel : Nat) (s : St)
    (h : s.webhookJobs = []) : runWebhookQueue deliver fuel s = s := by
  cases fuel with
  | zero => rfl
  | succ n =>
    simp only [runWebhookQueue]
    rw [h]

/-- Worker body on a failed delivery below the attempt cap: appends the
pending row and re-enqueues with attempt + 1 and the scheduled delay. -/
theorem webhookStep_fail_lt (deliver : DeliverFn) (s : St) (job : WebhookJob)
    (m : Merchant) (url : String) (rc : Option Nat)
    (hm : findMerchant s.merchants job.merchantId = some m)
    (hu : m.webhookUrl = some url)
    (hd : deliver job = Except.error rc)
    (ha : job.attempt < 5) :
    webhookStep deliver s job =
      { s with
        webhookLogs := s.webhookLogs ++
          [pendingLog job.merchantId job.event
            ⟨job.event,
              job.paymentId.bind (fun q => getPaymentById s.payments q)⟩
            (job.attempt + 1) (delayForAttempt job.attempt)]
        webhookJobs := s.webhookJobs ++
          [({ job with attempt := job.attempt + 1 },
            delayForAttempt job.attempt * 1000)] } := by
  unfold webhookStep
  simp only [hm, hu, hd]
  rw [if_pos ha]
  rfl

/-- Worker body on a failed delivery at or above the attempt cap: appends
the terminal failed row and re-enqueues nothing. -/
theorem webhookStep_fail_ge (deliver : DeliverFn) (s : St) (job : WebhookJob)
    (m : Merchant) (url : String) (rc : Option Nat)
    (hm : findMerchant s.merchants job.merchantId = some m)
    (hu : m.webhookUrl = some url)
    (hd : deliver job = Except.error rc)
    (ha : ¬ job.attempt < 5) :
    webhookStep deliver s job =
      { s with
        webhookLogs := s.webhookLogs ++
          [failedLog job.merchantId job.event
            ⟨job.event,
              job.paymentId.bind (fun q => getPaymentById s.payments q)⟩
            job.attempt rc] } := by
  unfold webhookStep
  simp only [hm, hu, hd]
  rw [if_neg ha]
  rfl

/-- C4.  For every webhook job entering the queue at attempt 1 whose
endpoint fails on every attempt (the delivery outcome is an error with an
arbitrary per-job response code), the delivery engine performs exactly 5
delivery attempts and no 6th: whatever surplus fuel the run is given, the
queue is empty at the end and exactly 5 WebhookAttempt rows were appended,
4 pending ones recording the schedule 60, 300, 1800, 7200 seconds (the
fixed schedule indexed by the failing attempt number) with attempts
2, 3, 4, 5, and 1 terminal failed row at attempt 5; and the first failure
re-enqueues the job with attempt 2 delayed by 60000 ms. -/
theorem webhook_retry_schedule_C4 :
    ∀ (s : St) (m : Merchant) (url event : String) (pid rid : Option String)
      (d0 : Nat) (rcF : WebhookJob → Option Nat) (extra : Nat),
      findMerchant s.merchants m.id = some m →
      m.webhookUrl = some url →
      s.webhookJobs = [(⟨event, pid, rid, m.id, 1⟩, d0)] →
      (runWebhookQueue (fun j => Except.error (rcF j)) (extra + 5)
            s).webhookLogs =
          s.webhookLogs ++
            [pendingLog m.id event
                ⟨event, pid.bind (fun q => getPaymentById s.payments q)⟩ 2 60,
              pendingLog m.id event
                ⟨event, pid.bind (fun q => getPaymentById s.payments q)⟩ 3 300,
              pendingLog m.id event
                ⟨event, pid.bind (fun q => getPaymentById s.payments q)⟩ 4 1800,
              pendingLog m.id event
                ⟨event, pid.bind (fun q => getPaymentById s.payments q)⟩ 5 7200,
              failedLog m.id event
                ⟨event, pid.bind (fun q => getPaymentById s.payments q)⟩ 5
                (rcF ⟨event, pid, rid, m.id, 5⟩)]
      ∧ (runWebhookQueue (fun j => Except.error (rcF j)) (extra + 5)
            s).webhookJobs = []
      ∧ (runWebhookQueue (fun j => Except.error (rcF j)) 1 s).webhookJobs =
          [(⟨event, pid, rid, m.id, 2⟩, 60 * 1000)] := by
  intro s m url event pid rid d0 rcF extra hm hu hq
  have estep : ∀ (f : Nat) (st : St) (job : WebhookJob) (dly : Nat)
      (rest : List (WebhookJob × Nat)),
      st.webhookJobs = (job, dly) :: rest →
      runWebhookQueue (fun j => Except.error (rcF j)) (f + 1) st =
        runWebhookQueue (fun j => Except.error (rcF j)) f
          (webhookStep (fun j => Except.error (rcF j))
            { st with webhookJobs := rest } job) := by
    intro f st job dly rest h
    simp only [runWebhookQueue]
    rw [h]
  have hs1 : webhookStep (fun j => Except.error (rcF j))
      { s with webhookJobs := [] } ⟨event, pid, rid, m.id, 1⟩ =
      { s with
        webhookLogs := s.webhookLogs ++
          [pendingLog m.id event
            ⟨event, pid.bind (fun q => getPaymentById s.payments q)⟩ 2 60]
        webhookJobs := [(⟨event, pid, rid, m.id, 2⟩, 60 * 1000)] } :=
    webhookStep_fail_lt (fun j => Except.error (rcF j))
      { s with webhookJobs := [] } ⟨event, pid, rid, m.id, 1⟩ m url
      (rcF ⟨event, pid, rid, m.id, 1⟩) hm hu rfl (by show (1 : Nat) < 5; decide)
  have hs2 : webhookStep (fun j => Except.error (rcF j))
      { s with
        webhookLogs := s.webhookLogs ++
          [pendingLog m.id event
            ⟨event, pid.bind (fun q => getPaymentById s.payments q)⟩ 2 60]
        webhookJobs := [] } ⟨event, pid, rid, m.id, 2⟩ =
      { s with
        webhookLogs := (s.webhookLogs ++
          [pendingLog m.id event
            ⟨event, pid.bind (fun q => getPaymentById s.payments q)⟩ 2 60]) ++
          [pendingLog m.id event
            ⟨event, pid.bind (fun q => getPaymentById s.payments q)⟩ 3 300]
        webhookJobs := [(⟨event, pid, rid, m.id, 3⟩, 300 * 1000)] } :=
    webhookStep_fail_lt (fun j => Except.error (rcF j)) _
      ⟨event, pid, rid, m.id, 2⟩ m url (rcF ⟨event, pid, rid, m.id, 2⟩) hm hu
      rfl (by show (2 : Nat) < 5; decide)
  have hs3 : webhookStep (fun j => Except.error (rcF j))
      { s with
        webhookLogs := (s.webhookLogs ++
          [pendingLog m.id event
            ⟨event, pid.bind (fun q => getPaymentById s.payments q)⟩ 2 60]) ++
          [pendingLog m.id event
            ⟨event, pid.bind (fun q => getPaymentById s.payments q)⟩ 3 300]
        webhookJobs := [] } ⟨event, pid, rid, m.id, 3⟩ =
      { s with
        webhookLogs := ((s.webhookLogs ++
          [pendingLog m.id event
            ⟨event, pid.bind (fun q => getPaymentById s.payments q)⟩ 2 60]) ++
          [pendingLog m.id event
            ⟨event, pid.bind (fun q => getPaymentById s.payments q)⟩ 3 300]) ++
          [pendingLog m.id event
            ⟨event, pid.bind (fun q => getPaymentById s.payments q)⟩ 4 1800]
        webhookJobs := [(⟨event, pid, rid, m.id, 4⟩, 1800 * 1000)] } :=
    webhookStep_fail_lt (fun j => Except.error (rcF j)) _
      ⟨event, pid, rid, m.id, 3⟩ m url (rcF ⟨event, pid, rid, m.id, 3⟩) hm hu
      rfl (by show (3 : Nat) < 5; decide)
  have hs4 : webhookStep (fun j => Except.error (rcF j))
      { s with
        webhookLogs := ((s.webhookLogs ++
          [pendingLog m.id event
            ⟨event, pid.bind (fun q => getPaymentById s.payments q)⟩ 2 60]) ++
          [pendingLog m.id event
            ⟨event, pid.bind (fun q => getPaymentById s.payments q)⟩ 3 300]) ++
          [pendingLog m.id event
            ⟨event, pid.bind (fun q => getPaymentById s.payments q)⟩ 4 1800]
        webhookJobs := [] } ⟨event, pid, rid, m.id, 4⟩ =
      { s with
        webhookLogs := (((s.webhookLogs ++
          [pendingLog m.id event
            ⟨event, pid.bind (fun q => getPaymentById s.payments q)⟩ 2 60]) ++
          [pendingLog m.id event
            ⟨event, pid.bind (fun q => getPaymentById s.payments q)⟩ 3 300]) ++
          [pendingLog m.id event
            ⟨event, pid.bind (fun q => getPaymentById s.payments q)⟩ 4 1800]) ++
          [pendingLog m.id event
            ⟨event, pid.bind (fun q => getPaymentById s.payments q)⟩ 5 7200]
        webhookJobs := [(⟨event, pid, rid, m.id, 5⟩, 7200 * 1000)] } :=
    webhookStep_fail_lt (fun j => Except.error (rcF j)) _
      ⟨event, pid, rid, m.id, 4⟩ m url (rcF ⟨event, pid, rid, m.id, 4⟩) hm hu
      rfl (by show (4 : Nat) < 5; decide)
  have hs5 : webhookStep (fun j => Except.error (rcF j))
      { s with
        webhookLogs := (((s.webhookLogs ++
          [pendingLog m.id event
            ⟨event, pid.bind (fun q => getPaymentById s.payments q)⟩ 2 60]) ++
          [pendingLog m.id event
            ⟨event, pid.bind (fun q => getPaymentById s.payments q)⟩ 3 300]) ++
          [pendingLog m.id event
            ⟨event, pid.bind (fun q => getPaymentById s.payments q)⟩ 4 1800]) ++
          [pendingLog m.id event
            ⟨event, pid.bind (fun q => getPaymentById s.payments q)⟩ 5 7200]
        webhookJobs := [] } ⟨event, pid, rid, m.id, 5⟩ =
      { s with
        webhookLogs := ((((s.webhookLogs ++
          [pendingLog m.id event
            ⟨event, pid.bind (fun q => getPaymentById s.payments q)⟩ 2 60]) ++
          [pendingLog m.id event
            ⟨event, pid.bind (fun q => getPaymentById s.payments q)⟩ 3 300]) ++
          [pendingLog m.id event
            ⟨event, pid.bind (fun q => getPaymentById s.payments q)⟩ 4 1800]) ++
          [pendingLog m.id event
            ⟨event, pid.bind (fun q => getPaymentById s.payments q)⟩ 5 7200]) ++
          [failedLog m.id event
            ⟨event, pid.bind (fun q => getPaymentById s.payments q)⟩ 5
            (rcF ⟨event, pid, rid, m.id, 5⟩)]
        webhookJobs := [] } :=
    webhookStep_fail_ge (fun j => Except.error (rcF j)) _
      ⟨event, pid, rid, m.id, 5⟩ m url (rcF ⟨event, pid, rid, m.id, 5⟩) hm hu
      rfl (by show ¬ (5 : Nat) < 5; decide)
  have h05 : runWebhookQueue (fun j => Except.error (rcF j)) (extra + 5) s =
      runWebhookQueue (fun j => Except.error (rcF j)) (extra + 4)
        (webhookStep (fun j => Except.error (rcF j))
          { s with webhookJobs := [] } ⟨event, pid, rid, m.id, 1⟩) :=
    estep (extra + 4) s ⟨event, pid, rid, m.id, 1⟩ d0 [] hq
  have h45 : runWebhookQueue (fun j => Except.error (rcF j)) (extra + 4)
      { s with
        webhookLogs := s.webhookLogs ++
          [pendingLog m.id event
            ⟨event, pid.bind (fun q => getPaymentById s.payments q)⟩ 2 60]
        webhookJobs := [(⟨event, pid, rid, m.id, 2⟩, 60 * 1000)] } =
      runWebhookQueue (fun j => Except.error (rcF j)) (extra + 3)
        (webhookStep (fun j => Except.error (rcF j))
          { s with
            webhookLogs := s.webhookLogs ++
              [pendingLog m.id event
                ⟨event, pid.bind (fun q => getPaymentById s.payments q)⟩ 2 60]
            webhookJobs := [] } ⟨event, pid, rid, m.id, 2⟩) :=
    estep (extra + 3) _ ⟨event, pid, rid, m.id, 2⟩ (60 * 1000) [] rfl
  have h35 : runWebhookQueue (fun j => Except.error (rcF j)) (extra + 3)
      { s with
        webhookLogs := (s.webhookLogs ++
          [pendingLog m.id event
            ⟨event, pid.bind (fun q => getPaymentById s.payments q)⟩ 2 60]) ++
          [pendingLog m.id event
            ⟨event, pid.bind (fun q => getPaymentById s.payments q)⟩ 3 300]
        webhookJobs := [(⟨event, pid, rid, m.id, 3⟩, 300 * 1000)] } =
      runWebhookQueue (fun j => Except.error (rcF j)) (extra + 2)
        (webhookStep (fun j => Except.error (rcF j))
          { s with
            webhookLogs := (s.webhookLogs ++
              [pendingLog m.id event
                ⟨event, pid.bind (fun q => getPaymentById s.payments q)⟩
                2 60]) ++
              [pendingLog m.id event
                ⟨event, pid.bind (fun q => getPaymentById s.payments q)⟩
                3 300]
            webhookJobs := [] } ⟨event, pid, rid, m.id, 3⟩) :=
    estep (extra + 2) _ ⟨event, pid, rid, m.id, 3⟩ (300 * 1000) [] rfl
  have h25 : runWebhookQueue (fun j => Except.error (rcF j)) (extra + 2)
      { s with
        webhookLogs := ((s.webhookLogs ++
          [pendingLog m.id event
            ⟨event, pid.bind (fun q => getPaymentById s.payments q)⟩ 2 60]) ++
          [pendingLog m.id event
            ⟨event, pid.bind (fun q => getPaymentById s.payments q)⟩ 3 300]) ++
          [pendingLog m.id event
            ⟨event, pid.bind (fun q => getPaymentById s.payments q)⟩ 4 1800]
        webhookJobs := [(⟨event, pid, rid, m.id, 4⟩, 1800 * 1000)] } =
      runWebhookQueue (fun j => Except.error (rcF j)) (extra + 1)
        (webhookStep (fun j => Except.error (rcF j))
          { s with
            webhookLogs := ((s.webhookLogs ++
              [pendingLog m.id event
                ⟨event, pid.bind (fun q => getPaymentById s.payments q)⟩
                2 60]) ++
              [pendingLog m.id event
                ⟨event, pid.bind (fun q => getPaymentById s.payments q)⟩
                3 300]) ++
              [pendingLog m.id event
                ⟨event, pid.bind (fun q => getPaymentById s.payments q)⟩
                4 1800]
            webhookJobs := [] } ⟨event, pid, rid, m.id, 4⟩) :=
    estep (extra + 1) _ ⟨event, pid, rid, m.id, 4⟩ (1800 * 1000) [] rfl
  have h15 : runWebhookQueue (fun j => Except.error (rcF j)) (extra + 1)
      { s with
        webhookLogs := (((s.webhookLogs ++
          [pendingLog m.id event
            ⟨event, pid.bind (fun q => getPaymentById s.payments q)⟩ 2 60]) ++
          [pendingLog m.id event
            ⟨event, pid.bind (fun q => getPaymentById s.payments q)⟩ 3 300]) ++
          [pendingLog m.id event
            ⟨event, pid.bind (fun q => getPaymentById s.payments q)⟩ 4 1800]) ++
          [pendingLog m.id event
            ⟨event, pid.bind (fun q => getPaymentById s.payments q)⟩ 5 7200]
        webhookJobs := [(⟨event, pid, rid, m.id, 5⟩, 7200 * 1000)] } =
      runWebhookQueue (fun j => Except.error (rcF j)) extra
        (webhookStep (fun j => Except.error (rcF j))
          { s with
            webhookLogs := (((s.webhookLogs ++
              [pendingLog m.id event
                ⟨event, pid.bind (fun q => getPaymentById s.payments q)⟩
                2 60]) ++
              [pendingLog m.id event
                ⟨event, pid.bind (fun q => getPaymentById s.payments q)⟩
                3 300]) ++
              [pendingLog m.id event
                ⟨event, pid.bind (fun q => getPaymentById s.payments q)⟩
                4 1800]) ++
              [pendingLog m.id event
                ⟨event, pid.bind (fun q => getPaymentById s.payments q)⟩
                5 7200]
            webhookJobs := [] } ⟨event, pid, rid, m.id, 5⟩) :=
    estep extra _ ⟨event, pid, rid, m.id, 5⟩ (7200 * 1000) [] rfl
  have hrun : runWebhookQueue (fun j => Except.error (rcF j)) (extra + 5) s =
      { s with
        webhookLogs := ((((s.webhookLogs ++
          [pendingLog m.id event
            ⟨event, pid.bind (fun q => getPaymentById s.payments q)⟩ 2 60]) ++
          [pendingLog m.id event
            ⟨event, pid.bind (fun q => getPaymentById s.payments q)⟩ 3 300]) ++
          [pendingLog m.id event
            ⟨event, pid.bind (fun q => getPaymentById s.payments q)⟩ 4 1800]) ++
          [pendingLog m.id event
            ⟨event, pid.bind (fun q => getPaymentById s.payments q)⟩ 5 7200]) ++
          [failedLog m.id event
            ⟨event, pid.bind (fun q => getPaymentById s.payments q)⟩ 5
            (rcF ⟨event, pid, rid, m.id, 5⟩)]
        webhookJobs := [] } := by
    rw [h05, hs1, h45, hs2, h35, hs3, h25, hs4, h15, hs5]
    exact runWebhookQueue_empty _ extra _ rfl
  refine ⟨?_, ?_, ?_⟩
  · rw [hrun]
    simp [List.append_assoc]
  · rw [hrun]
  · have h1 : runWebhookQueue (fun j => Except.error (rcF j)) 1 s =
        runWebhookQueue (fun j => Except.error (rcF j)) 0
          (webhookStep (fun j => Except.error (rcF j))
            { s with webhookJobs := [] } ⟨event, pid, rid, m.id, 1⟩) :=
      estep 0 s ⟨event, pid, rid, m.id, 1⟩ d0 [] hq
    rw [h1, hs1]
    rfl

/-- Merchant fixture for the C4 witness, with a configured webhook URL. -/
def c4Merchant : Merchant :=
  ⟨"m1", "key1", some "https://merchant.example/hook", "sec1"⟩

/-- Fixture for the C4 witness: the merchant, its settled payment, and one
webhook job entering the queue at attempt 1. -/
def c4State : St :=
  { stEmpty with
    merchants := [c4Merchant]
    payments := [⟨"pay_1", "m1", "o1", 500, PayStatus.success, "upi"⟩]
    webhookJobs := [(⟨"payment.success", some "pay_1", none, "m1", 1⟩, 0)] }

/-- Witness for C4: running the always-500 endpoint on the fixture drains
the queue and appends the 5 rows (4 pending at 60, 300, 1800, 7200 seconds
with attempts 2-5 and 1 failed at attempt 5), with no 6th attempt even
with surplus fuel. -/
theorem webhook_retry_schedule_C4_witness :
    (findMerchant c4State.merchants "m1" = some c4Merchant)
    ∧ c4Merchant.webhookUrl = some "https://merchant.example/hook"
    ∧ c4State.webhookJobs =
        [(⟨"payment.success", some "pay_1", none, "m1", 1⟩, 0)]
    ∧ (runWebhookQueue (fun _ => Except.error (some 500)) (2 + 5)
        c4State).webhookJobs = []
    ∧ ((runWebhookQueue (fun _ => Except.error (some 500)) (2 + 5)
        c4State).webhookLogs.map
          (fun l => (l.status, l.attempts, l.nextRetryAt, l.responseCode))) =
        [(WebhookStatus.pending, 2, some 60, none),
         (WebhookStatus.pending, 3, some 300, none),
         (WebhookStatus.pending, 4, some 1800, none),
         (WebhookStatus.pending, 5, some 7200, none),
         (WebhookStatus.failed, 5, none, some 500)] := by
  have h := webhook_retry_schedule_C4 c4State c4Merchant
    "https://merchant.example/hook" "payment.success" (some "pay_1") none 0
    (fun _ => some 500) 2 (by decide) rfl rfl
  refine ⟨by decide, rfl, rfl, h.2.1, ?_⟩
  rw [h.1]
  rfl

end PG
